import Mathlib

/-!
Verification development for the async2v event/field/scheduling core.

Shallow embedding of the Python sources:
  * `src/async2v/event.py`            (Event)
  * `src/async2v/fields.py`           (DoubleBufferedField, Latest, Buffer, History,
                                       Output, AveragingOutput)
  * `src/async2v/application/_registry.py` (FieldNode, ComponentNode, Registry)
  * `src/async2v/application/_runner.py`   (IteratingComponentRunner,
                                       EventDrivenComponentRunner)

Python floats that only carry wall-clock times or averaged metric values are
modelled as rationals; payload types are a type parameter.  Mutation of an
object is modelled as explicit state passing: each Python method becomes a
function from the old state to the new state.  A Python function that can
raise is modelled with an explicit error component in its result.
-/

/-- Event envelope, from `async2v/event.py`: `Event.__init__` stores
`key`, `value` and `timestamp` (the timestamp defaults to the current wall
clock; callers of the model pass the clock value explicitly). -/
structure Event (V : Type) where
  key : String
  value : V
  timestamp : ℚ
deriving DecidableEq, Repr

/-- Python `collections.deque(maxlen=m)` append: with `maxlen=None` a plain
append; with `maxlen=n` the element is appended and elements are discarded
from the left until at most `n` remain. -/
def dequeAppend (maxlen : Option Nat) (l : List α) (a : α) : List α :=
  match maxlen with
  | none => l ++ [a]
  | some n =>
    let fullList := l ++ [a]
    fullList.drop (fullList.length - n)

/-- State of a `Latest` field (`async2v/fields.py`, class `Latest`), including
the state inherited from `DoubleBufferedField`: `_input_updated` (the asyncio
event used as a boolean flag), `_updated`, and the two event slots
`_input_event` / `_event`. -/
structure Latest (V : Type) where
  key : String
  trigger : Bool
  inputUpdated : Bool
  updated : Bool
  inputEvent : Option (Event V)
  event : Option (Event V)
deriving DecidableEq, Repr

/-- `Latest.__init__`: both event slots start as `None`, the flags as unset. -/
def Latest.init (key : String) (trigger : Bool) : Latest V :=
  { key := key, trigger := trigger, inputUpdated := false, updated := false
    inputEvent := none, event := none }

/-- `DoubleBufferedField.set` specialised to `Latest`: sets `_input_updated`
and runs `Latest._set_event`, which stores the event in `_input_event`. -/
def Latest.set (s : Latest V) (new : Event V) : Latest V :=
  { s with inputUpdated := true, inputEvent := some new }

/-- `DoubleBufferedField.switch` specialised to `Latest`: copies the
`_input_updated` flag into `_updated`, runs `Latest._switch_events`
(`_event = _input_event`; the staging slot is not cleared), then clears
`_input_updated`. -/
def Latest.switch (s : Latest V) : Latest V :=
  { s with updated := s.inputUpdated, event := s.inputEvent, inputUpdated := false }

/-- `Latest.value`: returns `None` when no event is present, else the
event's value.  This accessor is total. -/
def Latest.value (s : Latest V) : Option V :=
  match s.event with
  | none => none
  | some e => some e.value

/-- Python runtime errors that the modelled accessors can raise. -/
inductive PyErr where
  | attributeError
deriving DecidableEq, Repr

/-- `Latest.timestamp`: evaluates `self._event.timestamp` with no `None`
guard, so it raises `AttributeError` when no event has been received. -/
def Latest.timestampRes (s : Latest V) : Except PyErr ℚ :=
  match s.event with
  | none => .error .attributeError
  | some e => .ok e.timestamp

/-- Iterated `switch` with no intervening `set`. -/
def Latest.switchN : Nat → Latest V → Latest V
  | 0, s => s
  | n + 1, s => Latest.switchN n s.switch

/-- State of a `Buffer` field (`async2v/fields.py`, class `Buffer`):
`_input_buffer` is a deque with the configured `maxlen`, the stable side
holds `_events`, `_values`, `_timestamps`. -/
structure Buffer (V : Type) where
  key : String
  trigger : Bool
  maxlen : Option Nat
  inputUpdated : Bool
  updated : Bool
  inputBuffer : List (Event V)
  events : List (Event V)
  values : List V
  timestamps : List ℚ
deriving DecidableEq, Repr

/-- `Buffer.__init__`. -/
def Buffer.init (key : String) (maxlen : Option Nat) (trigger : Bool) : Buffer V :=
  { key := key, trigger := trigger, maxlen := maxlen, inputUpdated := false
    updated := false, inputBuffer := [], events := [], values := [], timestamps := [] }

/-- `DoubleBufferedField.set` specialised to `Buffer`: sets `_input_updated`,
then `Buffer._set_event` appends the event to the input deque. -/
def Buffer.set (s : Buffer V) (new : Event V) : Buffer V :=
  { s with inputUpdated := true, inputBuffer := dequeAppend s.maxlen s.inputBuffer new }

/-- `DoubleBufferedField.switch` specialised to `Buffer`:
`Buffer._switch_events` copies the staged events to the stable side,
derives values and timestamps, and clears the input deque. -/
def Buffer.switch (s : Buffer V) : Buffer V :=
  { s with updated := s.inputUpdated
           events := s.inputBuffer
           values := s.inputBuffer.map Event.value
           timestamps := s.inputBuffer.map Event.timestamp
           inputBuffer := []
           inputUpdated := false }

/-- State of a `History` field (`async2v/fields.py`, class `History`):
like `Buffer`, but `maxlen` is mandatory and `_switch_events` does not clear
the input deque. -/
structure History (V : Type) where
  key : String
  trigger : Bool
  maxlen : Nat
  inputUpdated : Bool
  updated : Bool
  inputBuffer : List (Event V)
  events : List (Event V)
  values : List V
  timestamps : List ℚ
deriving DecidableEq, Repr

/-- `History.__init__`. -/
def History.init (key : String) (maxlen : Nat) (trigger : Bool) : History V :=
  { key := key, trigger := trigger, maxlen := maxlen, inputUpdated := false
    updated := false, inputBuffer := [], events := [], values := [], timestamps := [] }

/-- `DoubleBufferedField.set` specialised to `History`: appends to the
bounded input deque. -/
def History.set (s : History V) (new : Event V) : History V :=
  { s with inputUpdated := true
           inputBuffer := dequeAppend (some s.maxlen) s.inputBuffer new }

/-- `DoubleBufferedField.switch` specialised to `History`:
`History._switch_events` copies the retained events to the stable side and
does not clear the input deque. -/
def History.switch (s : History V) : History V :=
  { s with updated := s.inputUpdated
           events := s.inputBuffer
           values := s.inputBuffer.map Event.value
           timestamps := s.inputBuffer.map Event.timestamp
           inputUpdated := false }

/-- One framework-side operation on a double-buffered field: an event
delivery (`set`) or a buffer switch at a step boundary. -/
inductive FieldOp (V : Type) where
  | set (e : Event V)
  | switch
deriving DecidableEq, Repr

/-- Apply a sequence of operations to a `Buffer` field. -/
def Buffer.applyOps (s : Buffer V) : List (FieldOp V) → Buffer V
  | [] => s
  | .set e :: rest => (s.set e).applyOps rest
  | .switch :: rest => s.switch.applyOps rest

/-- Apply a sequence of operations to a `History` field. -/
def History.applyOps (s : History V) : List (FieldOp V) → History V
  | [] => s
  | .set e :: rest => (s.set e).applyOps rest
  | .switch :: rest => s.switch.applyOps rest

/-- The events delivered by a sequence of operations, in delivery order. -/
def FieldOp.staged : List (FieldOp V) → List (Event V)
  | [] => []
  | .set e :: rest => e :: FieldOp.staged rest
  | .switch :: rest => FieldOp.staged rest

/-- The last `n` elements of a list (what a deque of `maxlen = n` retains). -/
def takeLast (l : List α) (n : Nat) : List α :=
  l.drop (l.length - n)

/-- State of an `AveragingOutput` (`async2v/fields.py`, class
`AveragingOutput`): the configured `count` / `interval`, the internal
`_buffer` of pushed values, `_last_pushed`, and the shared application
queue the inherited `Output.push` writes to (modelled as the list of events
this field has put on that queue).  Values are rationals, standing in for
any payload supporting addition and division by an integer. -/
structure AveragingOutput where
  key : String
  count : Option Nat
  interval : Option ℚ
  buffer : List ℚ
  lastPushed : ℚ
  queue : List (Event ℚ)
deriving DecidableEq, Repr

/-- `AveragingOutput.__init__` past its configuration check: `_buffer = []`,
`_last_pushed = 0`.  (The constructor raises a `ConfigurationError` when both
`count` and `interval` are `None`; the claims below only use configured
instances.) -/
def AveragingOutput.init (key : String) (count : Option Nat) (interval : Option ℚ) :
    AveragingOutput :=
  { key := key, count := count, interval := interval, buffer := [], lastPushed := 0
    queue := [] }

/-- Truthiness of `self._count` followed by the length test:
`self._count and len(self._buffer) >= self._count`.  `None` and `0` are
falsy in Python. -/
def countCondition (count : Option Nat) (bufLen : Nat) : Bool :=
  match count with
  | none => false
  | some c => c != 0 && c ≤ bufLen

/-- Truthiness of `self._interval` followed by the elapsed test:
`self._interval and time.time() - self._last_pushed > self._interval`.
`None` and `0.0` are falsy in Python. -/
def intervalCondition (interval : Option ℚ) (lastPushed now : ℚ) : Bool :=
  match interval with
  | none => false
  | some i => i != 0 && i < now - lastPushed

/-- `AveragingOutput.push(value)` called at wall-clock time `now` with the
default `timestamp=None`: append the value to `_buffer`; if the count or the
interval condition holds, emit one event carrying
`sum(self._buffer[1:], self._buffer[0]) / len(self._buffer)` (for rationals,
the sum of the buffer divided by its length), record `_last_pushed` and
clear the buffer.  The emitted event's timestamp defaults to the wall
clock. -/
def AveragingOutput.push (s : AveragingOutput) (value : ℚ) (now : ℚ) : AveragingOutput :=
  let buf := s.buffer ++ [value]
  if countCondition s.count buf.length || intervalCondition s.interval s.lastPushed now then
    { s with buffer := []
             lastPushed := now
             queue := s.queue ++ [⟨s.key, buf.sum / (buf.length : ℚ), now⟩] }
  else
    { s with buffer := buf }

/-- A sequence of `push` calls, all at the same wall-clock time. -/
def AveragingOutput.pushSeq (s : AveragingOutput) (vs : List ℚ) (now : ℚ) : AveragingOutput :=
  vs.foldl (fun acc v => acc.push v now) s

/-!
Registry model (`async2v/application/_registry.py`).

Python discriminates objects by their runtime class (`isinstance`).  The
model tags every relevant object with its class, so each `isinstance` check
in the source becomes a computable test on that tag.
-/

/-- Runtime classes of the field objects that can appear as component
attributes, plus the `FieldNode` wrapper class used inside the registry. -/
inductive RuntimeClass where
  | latest
  | latestBy
  | buffer
  | history
  | inputQueue
  | output
  | fieldNode
deriving DecidableEq, Repr

/-- `isinstance(x, InputField)`: `Latest`, `LatestBy`, `Buffer`, `History`
and `InputQueue` are the `InputField` subclasses; `Output` and `FieldNode`
are not. -/
def RuntimeClass.isInputField : RuntimeClass → Bool
  | .latest | .latestBy | .buffer | .history | .inputQueue => true
  | .output | .fieldNode => false

/-- `isinstance(x, DoubleBufferedField)`: `Latest`, `LatestBy`, `Buffer` and
`History` extend `DoubleBufferedField`; `InputQueue`, `Output` and
`FieldNode` do not. -/
def RuntimeClass.isDoubleBufferedField : RuntimeClass → Bool
  | .latest | .latestBy | .buffer | .history => true
  | .inputQueue | .output | .fieldNode => false

/-- `isinstance(x, Output)`. -/
def RuntimeClass.isOutput : RuntimeClass → Bool
  | .output => true
  | _ => false

/-- A field object as it appears among a component's attributes: its
attribute name, its runtime class, its key, and its `trigger` flag (only
meaningful on double-buffered fields; `False` otherwise). -/
structure PyField where
  name : String
  cls : RuntimeClass
  key : String
  trigger : Bool
deriving DecidableEq, Repr

/-- Scheduling kind of a component (`async2v/components/base.py`):
`IteratingComponent`, `EventDrivenComponent`, `BareComponent`, or any other
class (matched by the final `else` of `Registry._validate`). -/
inductive ComponentKind where
  | iterating
  | eventDriven
  | bare
  | other
deriving DecidableEq, Repr

/-- A component (or subcomponent): its id, kind, attribute fields (the
result of introspecting `vars(component)` in attribute order), and the
`sub_components` list when the component is a `ContainerMixin` (empty
otherwise). -/
inductive Component where
  | mk (id : String) (kind : ComponentKind) (fields : List PyField)
       (subs : List Component)

/-- Component id accessor. -/
def Component.id : Component → String
  | .mk i _ _ _ => i

/-- Component kind accessor. -/
def Component.kind : Component → ComponentKind
  | .mk _ k _ _ => k

/-- Component attribute-field list accessor. -/
def Component.fields : Component → List PyField
  | .mk _ _ fs _ => fs

/-- Subcomponent list accessor. -/
def Component.subs : Component → List Component
  | .mk _ _ _ ss => ss

/-- `FieldNode` (`_registry.py`): a wrapper object holding a field, its
qualified id and its attribute name.  Note that a `FieldNode` is itself an
object of class `FieldNode`, which is not a subclass of `InputField`. -/
structure FieldNode where
  field : PyField
  fieldId : String
  fieldName : String
deriving DecidableEq, Repr

/-- The runtime class of any `FieldNode` object is the `FieldNode` class. -/
def FieldNode.runtimeClass : FieldNode → RuntimeClass :=
  fun _ => .fieldNode

/-- `FieldNode.key` property: the key of the wrapped field. -/
def FieldNode.key (fn : FieldNode) : String :=
  fn.field.key

/-- `ComponentNode` (`_registry.py`): the component, its direct input /
output / trigger field nodes, and the nodes of its subcomponents. -/
inductive ComponentNode where
  | mk (component : Component)
       (inputs : List FieldNode)
       (outputs : List FieldNode)
       (triggers : List FieldNode)
       (subComponents : List ComponentNode)

/-- The wrapped component. -/
def ComponentNode.component : ComponentNode → Component
  | .mk c _ _ _ _ => c

/-- Direct input field nodes. -/
def ComponentNode.inputs : ComponentNode → List FieldNode
  | .mk _ i _ _ _ => i

/-- Direct output field nodes. -/
def ComponentNode.outputs : ComponentNode → List FieldNode
  | .mk _ _ o _ _ => o

/-- Direct trigger field nodes. -/
def ComponentNode.triggers : ComponentNode → List FieldNode
  | .mk _ _ _ t _ => t

/-- Subcomponent nodes. -/
def ComponentNode.subComponents : ComponentNode → List ComponentNode
  | .mk _ _ _ _ s => s

/-- `ComponentNode.id` property: the id of the wrapped component. -/
def ComponentNode.id (n : ComponentNode) : String :=
  n.component.id

mutual

/-- `ComponentNode.create(component, id_prefix)`: collect the component's
attributes that are `InputField`s as inputs, the `Output`s as outputs, and
the `DoubleBufferedField`s with `trigger` set as triggers, wrapping each in
a `FieldNode`; recurse into `sub_components` when the component is a
`ContainerMixin`. -/
def ComponentNode.create : Component → String → ComponentNode
  | .mk i k fs ss, pfx =>
    let p := pfx ++ i ++ "."
    ComponentNode.mk (.mk i k fs ss)
      ((fs.filter (fun f => f.cls.isInputField)).map
        (fun f => ⟨f, p ++ f.name, f.name⟩))
      ((fs.filter (fun f => f.cls.isOutput)).map
        (fun f => ⟨f, p ++ f.name, f.name⟩))
      ((fs.filter (fun f => f.cls.isDoubleBufferedField && f.trigger)).map
        (fun f => ⟨f, p ++ f.name, f.name⟩))
      (ComponentNode.createList ss p)

/-- `ComponentNode.create` mapped over a subcomponent list. -/
def ComponentNode.createList : List Component → String → List ComponentNode
  | [], _ => []
  | c :: rest, p => ComponentNode.create c p :: ComponentNode.createList rest p

end

mutual

/-- `ComponentNode.all_inputs`: direct inputs plus all descendants'. -/
def ComponentNode.allInputs : ComponentNode → List FieldNode
  | .mk _ ins _ _ subs => ins ++ ComponentNode.allInputsList subs

/-- `all_inputs` flattened over a subcomponent-node list. -/
def ComponentNode.allInputsList : List ComponentNode → List FieldNode
  | [] => []
  | n :: rest => ComponentNode.allInputs n ++ ComponentNode.allInputsList rest

end

mutual

/-- `ComponentNode.all_outputs`: direct outputs plus all descendants'. -/
def ComponentNode.allOutputs : ComponentNode → List FieldNode
  | .mk _ _ outs _ subs => outs ++ ComponentNode.allOutputsList subs

/-- `all_outputs` flattened over a subcomponent-node list. -/
def ComponentNode.allOutputsList : List ComponentNode → List FieldNode
  | [] => []
  | n :: rest => ComponentNode.allOutputs n ++ ComponentNode.allOutputsList rest

end

mutual

/-- `ComponentNode.all_triggers`: direct triggers plus all descendants'. -/
def ComponentNode.allTriggers : ComponentNode → List FieldNode
  | .mk _ _ _ trs subs => trs ++ ComponentNode.allTriggersList subs

/-- `all_triggers` flattened over a subcomponent-node list. -/
def ComponentNode.allTriggersList : List ComponentNode → List FieldNode
  | [] => []
  | n :: rest => ComponentNode.allTriggers n ++ ComponentNode.allTriggersList rest

end

/-- Errors `Registry.register` / `Registry.deregister` can raise. -/
inductive RegError where
  | configurationError (msg : String)
  | valueError (msg : String)
  | runtimeError (msg : String)
deriving DecidableEq, Repr

/-- Python `dict` lookup on an insertion-ordered association list. -/
def dictGet (d : List (String × β)) (k : String) : Option β :=
  match d with
  | [] => none
  | (k₁, v) :: rest => if k₁ = k then some v else dictGet rest k

/-- Append `v` to `d[k]`, creating `d[k] = []` first when the key is absent
(the `if key not in dict: dict[key] = []` / `append` idiom of
`Registry._add_fields`). -/
def dictAppend (d : List (String × List β)) (k : String) (v : β) :
    List (String × List β) :=
  match d with
  | [] => [(k, [v])]
  | (k₁, vs) :: rest =>
    if k₁ = k then (k₁, vs ++ [v]) :: rest else (k₁, vs) :: dictAppend rest k v

/-- Python `del d[k]`. -/
def dictRemove (d : List (String × β)) (k : String) : List (String × β) :=
  match d with
  | [] => []
  | (k₁, v) :: rest => if k₁ = k then rest else (k₁, v) :: dictRemove rest k

/-- `Registry` state: the node dict plus the two derived maps, which the
source regenerates in full on every state change. -/
structure Registry where
  nodes : List (String × ComponentNode)
  inputsByKeyMap : List (String × List PyField)
  triggeredByKeyMap : List (String × List Component)

/-- `Registry.__init__`. -/
def Registry.initial : Registry :=
  { nodes := [], inputsByKeyMap := [], triggeredByKeyMap := [] }

/-- `Registry._add_fields` acting on the pair of derived maps: append every
input field under its key, and the node's component under every trigger
key. -/
def Registry.addFields
    (maps : List (String × List PyField) × List (String × List Component))
    (node : ComponentNode) :
    List (String × List PyField) × List (String × List Component) :=
  let m₁ := node.allInputs.foldl (fun m fn => dictAppend m fn.key fn.field) maps.1
  let m₂ := node.allTriggers.foldl (fun m fn => dictAppend m fn.key node.component) maps.2
  (m₁, m₂)

/-- `Registry._generate_mappings`: rebuild both maps from scratch over all
registered nodes, in registration order. -/
def Registry.generateMappings (nodes : List (String × ComponentNode)) :
    List (String × List PyField) × List (String × List Component) :=
  nodes.foldl (fun maps p => Registry.addFields maps p.2) ([], [])

/-- `Registry._validate`: kind-specific structural checks.

The `BareComponent` branch is transcribed as in the source: it filters
`node.all_inputs` — a list of `FieldNode` wrapper objects — with
`isinstance(f, DoubleBufferedField)`.  A `FieldNode` is never an instance of
`DoubleBufferedField` (its class is `FieldNode`), so the transcription
applies `RuntimeClass.isDoubleBufferedField` to `FieldNode.runtimeClass`,
not to the class of the wrapped field. -/
def Registry.validate (node : ComponentNode) : Option RegError :=
  match node.component.kind with
  | .iterating =>
    if node.allTriggers.length > 0 then
      some (.configurationError
        ("IteratingComponent " ++ node.id ++ " cannot have trigger fields"))
    else none
  | .eventDriven =>
    if node.allTriggers.length = 0 then
      some (.configurationError
        ("EventDrivenComponent " ++ node.id ++ " must have at least one trigger field"))
    else none
  | .bare =>
    if (node.allInputs.filter
          (fun f => f.runtimeClass.isDoubleBufferedField)).length > 0 then
      some (.configurationError
        ("BareComponent " ++ node.id ++ " cannot have double-buffered fields"))
    else none
  | .other =>
    some (.runtimeError ("Unknown component type of " ++ node.id))

/-- `Registry.register`: build the node, validate, reject duplicate ids,
then store the node and rebuild the derived maps.  The statements execute
in source order, so on any raise the state mutations have not happened:
the model returns the unchanged registry together with the error. -/
def Registry.register (r : Registry) (c : Component) : Registry × Option RegError :=
  let node := ComponentNode.create c ""
  match Registry.validate node with
  | some e => (r, some e)
  | none =>
    match dictGet r.nodes node.id with
    | some _ => (r, some (.valueError ("Component " ++ node.id ++ " is already registered")))
    | none =>
      let nodes₁ := r.nodes ++ [(node.id, node)]
      let maps := Registry.generateMappings nodes₁
      ({ nodes := nodes₁, inputsByKeyMap := maps.1, triggeredByKeyMap := maps.2 }, none)

/-- `Registry.deregister`: raise when the component is unknown, otherwise
remove its node and rebuild the derived maps. -/
def Registry.deregister (r : Registry) (c : Component) : Registry × Option RegError :=
  match dictGet r.nodes c.id with
  | none => (r, some (.valueError ("Component " ++ c.id ++ " is not registered")))
  | some _ =>
    let nodes₁ := dictRemove r.nodes c.id
    let maps := Registry.generateMappings nodes₁
    ({ nodes := nodes₁, inputsByKeyMap := maps.1, triggeredByKeyMap := maps.2 }, none)

/-- `Registry.inputs_by_key`: lookup with `[]` as default. -/
def Registry.inputsByKey (r : Registry) (k : String) : List PyField :=
  (dictGet r.inputsByKeyMap k).getD []

/-- `Registry.triggered_component_by_key`: lookup with `[]` as default. -/
def Registry.triggeredComponentByKey (r : Registry) (k : String) : List Component :=
  (dictGet r.triggeredByKeyMap k).getD []

/-!
Runner models (`async2v/application/_runner.py`).
-/

/-- The internal event key enqueued by a runner when a processing step
raises (`async2v/event.py`, `SHUTDOWN_DUE_TO_ERROR`). -/
def SHUTDOWN_DUE_TO_ERROR : String := "async2v.shutdown_due_to_error"

/-- `IteratingComponentRunner.run`, projected onto the observables of its
processing loop.  Iteration `i` of the `while not self._stopped.is_set()`
loop: if the stop flag is observed (`stopAt i`), the loop exits to cleanup;
otherwise the owned double-buffered fields are switched and
`await self._component.process()` is invoked — when it raises (`procFails
i`), the exception is caught and `Event(SHUTDOWN_DUE_TO_ERROR)` is put on
the main queue; either way the loop then sleeps and re-checks the flag.
The result is the list of performed process-invocation indices together
with the shutdown keys the loop put on the main queue (the fps / duration
metric events, which use different keys, are outside this projection).
`fuel` bounds the number of loop iterations observed. -/
def iteratingRun (stopAt procFails : Nat → Bool) : Nat → Nat → List Nat × List String
  | 0, _ => ([], [])
  | fuel + 1, i =>
    if stopAt i then ([], [])
    else
      let rest := iteratingRun stopAt procFails fuel (i + 1)
      (i :: rest.1, (if procFails i then [SHUTDOWN_DUE_TO_ERROR] else []) ++ rest.2)

/-- Number of iterations the loop performs before observing the stop flag
(bounded by `fuel`). -/
def iterLoopLen (stopAt : Nat → Bool) : Nat → Nat → Nat
  | 0, _ => 0
  | fuel + 1, i => if stopAt i then 0 else iterLoopLen stopAt fuel (i + 1) + 1

/-- Delivery of one event to an `EventDrivenComponentRunner`'s trigger
field (`Application._handle_event`): the dispatcher calls `field.set(event)`
on the matching input field and then `runner.trigger()`, which sets the
runner's internal trigger flag. -/
def edDeliver (st : Buffer V × Bool) (e : Event V) : Buffer V × Bool :=
  (st.1.set e, true)

/-- `EventDrivenComponentRunner.run`, driven by a schedule of wake slots.
Each slot holds the events the dispatcher delivered to the trigger field
since the previous wake of the runner.  On a wake the runner's
`await asyncio.wait_for(self._trigger.wait(), timeout=0.1)` either times
out (flag unset: `continue`, no switch, no process) or returns (flag set:
switch the owned double-buffered fields, clear the flag, invoke
`await self._component.process()`).  The result records, per performed
process invocation, the values the component observes on its trigger
`Buffer` field during that invocation. -/
def edRun (field : Buffer V) (flag : Bool) : List (List (Event V)) → List (List V)
  | [] => []
  | slot :: rest =>
    let st := slot.foldl edDeliver (field, flag)
    if st.2 then
      let switched := st.1.switch
      switched.values :: edRun switched false rest
    else
      edRun st.1 st.2 rest

/-!
Concrete components and registries used as inputs for the claims.
-/

/-- A `BareComponent` instance owning one `Latest` input field (a
double-buffered field). -/
def bareWithLatest : Component :=
  .mk "BareWithLatest0" .bare [⟨"data", .latest, "cam", false⟩] []

/-- An `IteratingComponent` instance owning one trigger-flagged `Buffer`
field. -/
def iterWithTrigger : Component :=
  .mk "IterCam0" .iterating [⟨"frames", .buffer, "cam", true⟩] []

/-- An `EventDrivenComponent` instance whose only field is a non-trigger
`Latest`, i.e. with zero trigger-flagged fields. -/
def edWithoutTrigger : Component :=
  .mk "Handler0" .eventDriven [⟨"data", .latest, "cam", false⟩] []

/-- A valid `BareComponent` with no fields at all. -/
def plainBare : Component := .mk "Sink0" .bare [] []

/-- A registry holding `plainBare`, obtained by a successful registration. -/
def regWithPlainBare : Registry := (Registry.initial.register plainBare).1

/-!
Helper lemmas shared by the claims.
-/

/-- The node built by `ComponentNode.create` wraps exactly the given
component. -/
theorem ComponentNode.create_component (c : Component) (p : String) :
    (ComponentNode.create c p).component = c := by
  cases c
  simp [ComponentNode.create, ComponentNode.component]

/-- The id of a created node is the component's id. -/
theorem ComponentNode.create_id (c : Component) (p : String) :
    (ComponentNode.create c p).id = c.id := by
  simp [ComponentNode.id, ComponentNode.create_component]

/-- `Registry._validate` on an `IteratingComponent` node with at least one
trigger field raises the configuration error. -/
theorem Registry.validate_iterating (n : ComponentNode)
    (hk : n.component.kind = .iterating) (ht : 0 < n.allTriggers.length) :
    Registry.validate n =
      some (.configurationError
        ("IteratingComponent " ++ n.id ++ " cannot have trigger fields")) := by
  unfold Registry.validate
  rw [hk]
  exact if_pos ht

/-- `Registry._validate` on an `EventDrivenComponent` node with no trigger
field raises the configuration error. -/
theorem Registry.validate_event_driven (n : ComponentNode)
    (hk : n.component.kind = .eventDriven) (ht : n.allTriggers.length = 0) :
    Registry.validate n =
      some (.configurationError
        ("EventDrivenComponent " ++ n.id ++ " must have at least one trigger field")) := by
  unfold Registry.validate
  rw [hk]
  exact if_pos ht

/-- When validation rejects the node, `Registry.register` propagates the
error and performs no state mutation. -/
theorem Registry.register_validate_error (r : Registry) (c : Component) (e : RegError)
    (h : Registry.validate (ComponentNode.create c "") = some e) :
    r.register c = (r, some e) := by
  simp only [Registry.register]
  rw [h]

/-- Projection: `Buffer.switch` leaves the configured `maxlen` unchanged. -/
theorem Buffer.switch_maxlen (s : Buffer V) : s.switch.maxlen = s.maxlen := rfl

/-- Projection: `Buffer.switch` clears the staging deque. -/
theorem Buffer.switch_inputBuffer (s : Buffer V) : s.switch.inputBuffer = [] := rfl

/-- Projection: `Buffer.switch` publishes the staged values. -/
theorem Buffer.switch_values (s : Buffer V) :
    s.switch.values = s.inputBuffer.map Event.value := rfl

/-- A dispatcher delivery batch leaves the field staged with the batch and
sets the runner's trigger flag iff the batch is nonempty. -/
theorem foldl_edDeliver (slot : List (Event V)) :
    ∀ (b : Buffer V) (flag : Bool),
      (slot.foldl edDeliver (b, flag)).1 = slot.foldl Buffer.set b
      ∧ (slot.foldl edDeliver (b, flag)).2 = (flag || !slot.isEmpty) := by
  induction slot with
  | nil => intro b flag; simp
  | cons e rest ih =>
    intro b flag
    simp only [List.foldl, edDeliver]
    exact ⟨(ih (b.set e) true).1, by simp [(ih (b.set e) true).2]⟩

/-- With `maxlen=None`, staging a batch appends it to the staging deque. -/
theorem foldl_Buffer_set (slot : List (Event V)) :
    ∀ (b : Buffer V), b.maxlen = none →
      (slot.foldl Buffer.set b).inputBuffer = b.inputBuffer ++ slot
      ∧ (slot.foldl Buffer.set b).maxlen = none := by
  induction slot with
  | nil => intro b h; simp [h]
  | cons e rest ih =>
    intro b h
    have := ih (b.set e) (by simp [Buffer.set, h])
    simp only [List.foldl]
    refine ⟨?_, this.2⟩
    rw [this.1]
    simp [Buffer.set, dequeAppend, h]

/-- The event-driven runner, started with an empty staging deque and a clear
trigger flag, performs exactly one processing step per nonempty delivery
batch, and that step observes exactly the values of the batch. -/
theorem edRun_quiescent :
    ∀ (slots : List (List (Event V))) (b : Buffer V),
      b.maxlen = none → b.inputBuffer = [] →
      edRun b false slots =
        (slots.filter (fun slot => !slot.isEmpty)).map (fun slot => slot.map Event.value) := by
  intro slots
  induction slots with
  | nil => intro b hm hb; simp [edRun]
  | cons slot rest ih =>
    intro b hm hb
    cases slot with
    | nil =>
      simp only [edRun, List.foldl]
      simp [List.filter, ih b hm hb]
    | cons e es =>
      have hd := foldl_edDeliver (e :: es) b false
      have hs := foldl_Buffer_set (e :: es) b hm
      simp only [edRun, hd.2]
      rw [if_pos (by simp)]
      rw [hd.1]
      have hbuf : ((e :: es).foldl Buffer.set b).inputBuffer = e :: es := by
        rw [hs.1, hb]; simp
      have hswm : ((e :: es).foldl Buffer.set b).switch.maxlen = none := by
        rw [Buffer.switch_maxlen]; exact hs.2
      have hswb : ((e :: es).foldl Buffer.set b).switch.inputBuffer = [] :=
        Buffer.switch_inputBuffer _
      rw [ih _ hswm hswb]
      simp only [List.filter, Buffer.switch_values, hbuf]
      simp

/-- Iterated over a fold, a bounded deque append keeps the last `n`
elements of everything appended. -/
theorem foldl_dequeAppend_some (n : Nat) :
    ∀ (es l : List α), l.length ≤ n →
      es.foldl (dequeAppend (some n)) l = takeLast (l ++ es) n := by
  intro es
  induction es with
  | nil => intro l h; simp [takeLast, Nat.sub_eq_zero_of_le h]
  | cons e rest ih =>
    intro l h
    simp only [List.foldl]
    have hlen : (dequeAppend (some n) l e).length ≤ n := by
      simp [dequeAppend]
      omega
    rw [ih _ hlen]
    simp only [dequeAppend, takeLast]
    have hd : (l ++ [e]).length - n ≤ (l ++ [e]).length := Nat.sub_le _ _
    have hcons : l ++ e :: rest = (l ++ [e]) ++ rest := by simp
    rw [hcons, ← List.drop_append_of_le_length hd, List.drop_drop]
    congr 1
    simp only [List.length_append, List.length_drop, List.length_cons,
      List.length_singleton]
    omega

/-- `Buffer.applyOps` never changes the configured `maxlen`. -/
theorem Buffer.applyOps_maxlen :
    ∀ (ops : List (FieldOp V)) (b : Buffer V), (b.applyOps ops).maxlen = b.maxlen := by
  intro ops
  induction ops with
  | nil => intro b; rfl
  | cons op rest ih =>
    intro b
    cases op with
    | set e => exact (ih (b.set e)).trans rfl
    | switch => exact (ih b.switch).trans rfl

/-- The staging deque of a `History` field is the bounded-deque fold of
every event ever staged (switches never clear it), and `maxlen` never
changes. -/
theorem History.applyOps_inputBuffer :
    ∀ (ops : List (FieldOp V)) (h : History V),
      (h.applyOps ops).inputBuffer =
        (FieldOp.staged ops).foldl (dequeAppend (some h.maxlen)) h.inputBuffer
      ∧ (h.applyOps ops).maxlen = h.maxlen := by
  intro ops
  induction ops with
  | nil => intro h; exact ⟨rfl, rfl⟩
  | cons op rest ih =>
    intro h
    cases op with
    | set e =>
      have := ih (h.set e)
      exact ⟨this.1, this.2⟩
    | switch =>
      have := ih h.switch
      exact ⟨this.1, this.2⟩

/-- After any number of `switch` calls and no `set`, a `Latest` field still
holds no event in either buffer slot. -/
theorem Latest.switchN_event_none :
    ∀ (n : Nat) (s : Latest V), s.inputEvent = none → s.event = none →
      (Latest.switchN n s).event = none ∧ (Latest.switchN n s).inputEvent = none := by
  intro n
  induction n with
  | zero => intro s h₁ h₂; exact ⟨h₂, h₁⟩
  | succ m ih =>
    intro s h₁ h₂
    exact ih s.switch (by simp [Latest.switch, h₁]) (by simp [Latest.switch, h₁])

/-- The performed process-invocation indices of the iterating loop form the
contiguous range of iterations up to the first observed stop. -/
theorem iteratingRun_fst (stopAt procFails : Nat → Bool) :
    ∀ (fuel i : Nat),
      (iteratingRun stopAt procFails fuel i).1 = List.range' i (iterLoopLen stopAt fuel i) := by
  intro fuel
  induction fuel with
  | zero => intro i; simp [iteratingRun, iterLoopLen]
  | succ m ih =>
    intro i
    by_cases hs : stopAt i
    · simp [iteratingRun, iterLoopLen, hs]
    · simp [iteratingRun, iterLoopLen, hs, ih (i + 1), List.range'_succ]

/-- The iterating loop puts exactly one shutdown-due-to-error key on the
main queue per failing process invocation. -/
theorem iteratingRun_snd (stopAt procFails : Nat → Bool) :
    ∀ (fuel i : Nat),
      (iteratingRun stopAt procFails fuel i).2 =
        ((iteratingRun stopAt procFails fuel i).1.filter procFails).map
          (fun _ => SHUTDOWN_DUE_TO_ERROR) := by
  intro fuel
  induction fuel with
  | zero => intro i; simp [iteratingRun]
  | succ m ih =>
    intro i
    by_cases hs : stopAt i
    · simp [iteratingRun, hs]
    · cases hp : procFails i <;>
        simp [iteratingRun, hs, hp, List.filter, ih (i + 1)]

/-!
Claim theorems.
-/

/-- C4: a `Latest` field fed the events 1 then 2 followed by a switch, then
3 and 4 followed by a second switch, reads `value = 4` with
`updated = true`; and for every `Latest` field, a switch with no
intervening `set` since the previous switch yields `updated = false` and
retains the previously visible value. -/
theorem latest_switch_semantics :
    ((((((Latest.init "k" false : Latest ℤ).set ⟨"k", 1, 0⟩).set ⟨"k", 2, 0⟩).switch.set
        ⟨"k", 3, 0⟩).set ⟨"k", 4, 0⟩).switch.value = some 4
      ∧ (((((Latest.init "k" false : Latest ℤ).set ⟨"k", 1, 0⟩).set ⟨"k", 2, 0⟩).switch.set
        ⟨"k", 3, 0⟩).set ⟨"k", 4, 0⟩).switch.updated = true)
    ∧ ∀ (V : Type) (s : Latest V),
        s.switch.switch.updated = false ∧ s.switch.switch.value = s.switch.value := by
  refine ⟨⟨by decide, by decide⟩, fun V s => ⟨?_, ?_⟩⟩
  · simp [Latest.switch]
  · simp [Latest.switch, Latest.value]

/-- C8: on a `Latest` field that has never received an event (freshly
constructed, any number of switches), reading `value` totally returns
`None`, while reading `timestamp` dereferences the absent event and raises
`AttributeError` — the two accessors are not uniformly total. -/
theorem latest_value_total_timestamp_partial :
    ∀ (V : Type) (key : String) (trigger : Bool) (n : Nat),
      (Latest.switchN n (Latest.init key trigger : Latest V)).value = none
      ∧ (Latest.switchN n (Latest.init key trigger : Latest V)).timestampRes =
          .error .attributeError := by
  intro V key trigger n
  have h := Latest.switchN_event_none n (Latest.init key trigger : Latest V) rfl rfl
  exact ⟨by simp [Latest.value, h.1], by simp [Latest.timestampRes, h.1]⟩

/-- C1 (the code violates the claim): registering a `BareComponent` owning
a double-buffered `Latest` input succeeds — `register` returns no error and
extends the registry — because `Registry._validate` filters the
`FieldNode` wrapper objects of `node.all_inputs` with
`isinstance(f, DoubleBufferedField)`, and that filter is empty for every
component, as the second conjunct shows. -/
theorem bare_double_buffered_not_rejected :
    ((Registry.initial.register bareWithLatest).2 = none
      ∧ (Registry.initial.register bareWithLatest).1.nodes.length = 1
      ∧ (ComponentNode.create bareWithLatest "").allInputs.map
          (fun fn => fn.field.cls.isDoubleBufferedField) = [true])
    ∧ ∀ (c : Component),
        (ComponentNode.create c "").allInputs.filter
          (fun fn => fn.runtimeClass.isDoubleBufferedField) = [] := by
  refine ⟨⟨by decide, by decide, by decide⟩, fun c => ?_⟩
  simp [FieldNode.runtimeClass, RuntimeClass.isDoubleBufferedField, List.filter_eq_nil_iff]

/-- C6: `Registry.register` raises a `ConfigurationError` — and leaves the
registry unchanged, hence the component is not indexed — for every
`IteratingComponent` whose node tree contains a trigger-flagged field, and
for every `EventDrivenComponent` whose node tree contains none. -/
theorem register_rejects_bad_trigger_cardinality :
    ∀ (r : Registry) (c : Component),
      (c.kind = .iterating → 0 < (ComponentNode.create c "").allTriggers.length →
        (r.register c).2 = some (RegError.configurationError
            ("IteratingComponent " ++ c.id ++ " cannot have trigger fields"))
          ∧ (r.register c).1 = r)
      ∧ (c.kind = .eventDriven → (ComponentNode.create c "").allTriggers.length = 0 →
        (r.register c).2 = some (RegError.configurationError
            ("EventDrivenComponent " ++ c.id ++ " must have at least one trigger field"))
          ∧ (r.register c).1 = r) := by
  intro r c
  constructor
  · intro hk ht
    have hv := Registry.validate_iterating (ComponentNode.create c "")
      (by rw [ComponentNode.create_component]; exact hk) ht
    rw [ComponentNode.create_id] at hv
    have := Registry.register_validate_error r c _ hv
    rw [this]
    exact ⟨rfl, rfl⟩
  · intro hk ht
    have hv := Registry.validate_event_driven (ComponentNode.create c "")
      (by rw [ComponentNode.create_component]; exact hk) ht
    rw [ComponentNode.create_id] at hv
    have := Registry.register_validate_error r c _ hv
    rw [this]
    exact ⟨rfl, rfl⟩

/-- C6 witness: a concrete iterating component with a trigger field and a
concrete event-driven component without one are both rejected with the
stated configuration errors, leaving the fresh registry unchanged. -/
theorem register_rejects_bad_trigger_cardinality_witness :
    (iterWithTrigger.kind = .iterating
      ∧ 0 < (ComponentNode.create iterWithTrigger "").allTriggers.length
      ∧ (Registry.initial.register iterWithTrigger).2 = some (RegError.configurationError
          "IteratingComponent IterCam0 cannot have trigger fields")
      ∧ (Registry.initial.register iterWithTrigger).1 = Registry.initial)
    ∧ (edWithoutTrigger.kind = .eventDriven
      ∧ (ComponentNode.create edWithoutTrigger "").allTriggers.length = 0
      ∧ (Registry.initial.register edWithoutTrigger).2 = some (RegError.configurationError
          "EventDrivenComponent Handler0 must have at least one trigger field")
      ∧ (Registry.initial.register edWithoutTrigger).1 = Registry.initial) :=
  ⟨⟨rfl, by decide,
    ((register_rejects_bad_trigger_cardinality Registry.initial iterWithTrigger).1 rfl
      (by decide)).1,
    ((register_rejects_bad_trigger_cardinality Registry.initial iterWithTrigger).1 rfl
      (by decide)).2⟩,
   ⟨rfl, by decide,
    ((register_rejects_bad_trigger_cardinality Registry.initial edWithoutTrigger).2 rfl
      (by decide)).1,
    ((register_rejects_bad_trigger_cardinality Registry.initial edWithoutTrigger).2 rfl
      (by decide)).2⟩⟩

/-- C10: `Registry.register` is atomic on failure — whenever it raises, the
node dict and both derived lookup maps answer every key exactly as before —
and a deregister of a never-registered component raises and returns the
registry unchanged. -/
theorem register_atomic_on_failure :
    (∀ (r : Registry) (c : Component) (r₁ : Registry) (e : RegError),
        r.register c = (r₁, some e) →
          ∀ k, r₁.inputsByKey k = r.inputsByKey k
            ∧ r₁.triggeredComponentByKey k = r.triggeredComponentByKey k
            ∧ r₁.nodes = r.nodes)
    ∧ ∀ (r : Registry) (c : Component),
        dictGet r.nodes c.id = none →
          r.deregister c =
            (r, some (RegError.valueError ("Component " ++ c.id ++ " is not registered"))) := by
  constructor
  · intro r c r₁ e h k
    have hr : r₁ = r := by
      simp only [Registry.register] at h
      split at h
      · exact (Prod.mk.injEq _ _ _ _ ▸ h).1.symm
      · split at h
        · exact (Prod.mk.injEq _ _ _ _ ▸ h).1.symm
        · simp at h
    rw [hr]
    exact ⟨rfl, rfl, rfl⟩
  · intro r c h
    simp only [Registry.deregister]
    rw [h]

/-- C10 witness: a duplicate registration of `plainBare` fails and leaves
the one-component registry intact, and deregistering from the fresh
registry fails and leaves it intact. -/
theorem register_atomic_on_failure_witness :
    (regWithPlainBare.register plainBare =
        (regWithPlainBare, some (RegError.valueError "Component Sink0 is already registered"))
      ∧ (regWithPlainBare.register plainBare).1.inputsByKey "sample" =
          regWithPlainBare.inputsByKey "sample"
      ∧ (regWithPlainBare.register plainBare).1.nodes = regWithPlainBare.nodes)
    ∧ (dictGet Registry.initial.nodes plainBare.id = none
      ∧ Registry.initial.deregister plainBare =
          (Registry.initial, some (RegError.valueError "Component Sink0 is not registered"))) := by
  have hreg : regWithPlainBare.register plainBare =
      (regWithPlainBare, some (RegError.valueError "Component Sink0 is already registered")) := rfl
  refine ⟨⟨hreg, ?_, ?_⟩, rfl, ?_⟩
  · exact ((register_atomic_on_failure.1 regWithPlainBare plainBare regWithPlainBare _ hreg)
      "sample").1
  · exact ((register_atomic_on_failure.1 regWithPlainBare plainBare regWithPlainBare _ hreg)
      "sample").2.2
  · exact register_atomic_on_failure.2 Registry.initial plainBare rfl

/-- C2 counterexample: the claim that after a failing process invocation the
iterating runner never invokes the processing step again is false — with
the stop flag not yet set, the run whose every invocation fails performs
invocation 1 after failing invocation 0. -/
theorem iterating_failed_process_runs_again :
    ¬ (∀ (stopAt procFails : Nat → Bool) (fuel k : Nat),
        procFails k = true →
        k ∈ (iteratingRun stopAt procFails fuel 0).1 →
        ∀ j ∈ (iteratingRun stopAt procFails fuel 0).1, j ≤ k) := by
  intro h
  have := h (fun _ => false) (fun _ => true) 2 0 rfl (by decide) 1 (by decide)
  exact absurd this (by decide)

/-- C2 amended: an exception from the processing step is caught and
enqueues exactly one shutdown-due-to-error event per failing invocation,
but it does not disable processing — the loop keeps invoking the
processing step once per iteration until the runner's stop flag is
observed (the invocation indices are exactly the contiguous iteration
range up to the first observed stop). -/
theorem iterating_loop_continues_until_stopped :
    ∀ (stopAt procFails : Nat → Bool) (fuel i : Nat),
      (iteratingRun stopAt procFails fuel i).1 = List.range' i (iterLoopLen stopAt fuel i)
      ∧ (iteratingRun stopAt procFails fuel i).2 =
          ((iteratingRun stopAt procFails fuel i).1.filter procFails).map
            (fun _ => SHUTDOWN_DUE_TO_ERROR) :=
  fun stopAt procFails fuel i =>
    ⟨iteratingRun_fst stopAt procFails fuel i, iteratingRun_snd stopAt procFails fuel i⟩

/-- C3: for an event-driven runner with a trigger `Buffer` field (default
`maxlen=None`), every batch of `N ≥ 1` events delivered before the
runner's next wake results in exactly one process invocation, which
observes exactly the `N` accumulated values in delivery order; a wake with
no delivered events performs no invocation. -/
theorem event_driven_trigger_coalescing :
    ∀ (V : Type) (key : String) (slots : List (List (Event V))),
      edRun (Buffer.init key none true) false slots =
        (slots.filter (fun slot => !slot.isEmpty)).map (fun slot => slot.map Event.value) :=
  fun _V key slots => edRun_quiescent slots (Buffer.init key none true) rfl rfl

/-- C5: for every reachable `Buffer` field with `maxlen=None`, a switch
makes exactly the events staged since the previous switch visible (events
and values) and clears the staging deque, so two consecutive switches with
no intervening `set` expose empty events and values; for every reachable
`History` field with `maxlen=N`, the events visible after a switch are the
last `N` events ever staged, and a switch with no intervening `set` leaves
the visible events unchanged. -/
theorem buffer_vs_history_switch_semantics :
    (∀ (V : Type) (key : String) (trig : Bool) (ops : List (FieldOp V)) (es : List (Event V)),
      ((es.foldl Buffer.set ((Buffer.init key none trig).applyOps ops).switch).switch).events = es
      ∧ ((es.foldl Buffer.set ((Buffer.init key none trig).applyOps ops).switch).switch).values =
          es.map Event.value
      ∧ ((es.foldl Buffer.set
            ((Buffer.init key none trig).applyOps ops).switch).switch).inputBuffer = []
      ∧ (((Buffer.init key none trig).applyOps ops).switch.switch).events = []
      ∧ (((Buffer.init key none trig).applyOps ops).switch.switch).values = [])
    ∧ (∀ (V : Type) (key : String) (maxlen : Nat) (trig : Bool) (ops : List (FieldOp V)),
      (((History.init key maxlen trig).applyOps ops).switch).events =
          takeLast (FieldOp.staged ops) maxlen
      ∧ (((History.init key maxlen trig).applyOps ops).switch.switch).events =
          (((History.init key maxlen trig).applyOps ops).switch).events) := by
  constructor
  · intro V key trig ops es
    have hm : (((Buffer.init key none trig).applyOps ops).switch).maxlen = none := by
      rw [Buffer.switch_maxlen, Buffer.applyOps_maxlen]; rfl
    have hset := foldl_Buffer_set es (((Buffer.init key none trig).applyOps ops).switch) hm
    have hbuf : (es.foldl Buffer.set
        (((Buffer.init key none trig).applyOps ops).switch)).inputBuffer = es := by
      rw [hset.1, Buffer.switch_inputBuffer]
      simp
    exact ⟨hbuf, by rw [Buffer.switch_values, hbuf], Buffer.switch_inputBuffer _, rfl, rfl⟩
  · intro V key maxlen trig ops
    have hinv := History.applyOps_inputBuffer ops (History.init key maxlen trig)
    constructor
    · show (((History.init key maxlen trig).applyOps ops)).inputBuffer = _
      rw [hinv.1]
      have := foldl_dequeAppend_some maxlen (FieldOp.staged ops) [] (by simp)
      simpa using this
    · rfl

/-- C7: an `AveragingOutput` with `count=4` and no interval, pushed the
values 0..7 in order, emits exactly two events carrying the averages 1.5
and 5.5 in that order, and its internal buffer is left empty (each
emission happens inside the `push` that fills the buffer to 4, carries
`sum(values)/len(values)` and clears the buffer). -/
theorem averaging_output_count_batches :
    ((AveragingOutput.init "async2v.duration" (some 4) none).pushSeq
        [0, 1, 2, 3, 4, 5, 6, 7] 0).queue.map Event.value = [3/2, 11/2]
    ∧ ((AveragingOutput.init "async2v.duration" (some 4) none).pushSeq
        [0, 1, 2, 3, 4, 5, 6, 7] 0).queue.length = 2
    ∧ ((AveragingOutput.init "async2v.duration" (some 4) none).pushSeq
        [0, 1, 2, 3, 4, 5, 6, 7] 0).buffer = [] := by
  refine ⟨?_, ?_, ?_⟩ <;>
    norm_num [AveragingOutput.pushSeq, AveragingOutput.push, AveragingOutput.init,
      countCondition, intervalCondition, List.foldl]

/-- C9: an `AveragingOutput` configured with only an interval has
`_last_pushed` initialised to 0, so whenever the wall clock exceeds the
interval — which holds at any realistic clock reading, regardless of how
recently the field was constructed — the very first `push` emits
immediately, averaging only that one value. -/
theorem averaging_output_first_push_emits (key : String) (i t v : ℚ)
    (hi : 0 < i) (ht : i < t) :
    ((AveragingOutput.init key none (some i)).push v t).queue.map Event.value = [v]
    ∧ ((AveragingOutput.init key none (some i)).push v t).buffer = [] := by
  have hne : i ≠ 0 := ne_of_gt hi
  constructor <;>
    simp [AveragingOutput.push, AveragingOutput.init, countCondition, intervalCondition,
      hne, ht]

/-- C9 witness: with interval 1 and first push at clock 2, the pushed value
5 is emitted immediately as its own average. -/
theorem averaging_output_first_push_emits_witness :
    (0 : ℚ) < 1 ∧ (1 : ℚ) < 2
    ∧ ((AveragingOutput.init "async2v.fps" none (some 1)).push 5 2).queue.map Event.value = [5]
    ∧ ((AveragingOutput.init "async2v.fps" none (some 1)).push 5 2).buffer = [] :=
  ⟨by norm_num, by norm_num,
   (averaging_output_first_push_emits "async2v.fps" 1 2 5 (by norm_num) (by norm_num)).1,
   (averaging_output_first_push_emits "async2v.fps" 1 2 5 (by norm_num) (by norm_num)).2⟩

